import Mathlib

set_option maxRecDepth 8000

namespace Av1

/-- An exact decimal number `mant / 10 ^ exp`. Every numeric value this script
handles (integer codes and decimal score literals such as 450.5) is an exact
decimal; values are kept in the canonical form where the mantissa is not a
multiple of 10 unless the exponent is 0, so that structural equality is value
equality. -/
structure Dec where
  mant : ℤ
  exp : ℕ
  deriving DecidableEq, Repr

instance (n : ℕ) : OfNat Dec n := ⟨⟨(n : ℤ), 0⟩⟩

/-- Put `mant / 10 ^ exp` into canonical form by stripping factors of 10. -/
def decNorm : ℤ → ℕ → Dec
  | m, 0 => ⟨m, 0⟩
  | m, e + 1 => if m % 10 = 0 then decNorm (m / 10) e else ⟨m, e + 1⟩

/-- The value `mant / 10 ^ e * 10 ^ exp10`, in canonical form. -/
def decOfParts (mant : ℤ) (e : ℕ) (exp10 : ℤ) : Dec :=
  let t : ℤ := (e : ℤ) - exp10
  if t ≤ 0 then decNorm (mant * 10 ^ (-t).toNat) 0 else decNorm mant t.toNat

/-- A pandas cell value as it occurs in this script: `null` models NaN/missing,
`num` models a numeric value (an exact decimal), and `str` models a Python
string value. -/
inductive Cell where
  | null : Cell
  | num : Dec → Cell
  | str : String → Cell
  deriving DecidableEq, Repr

/-- A row of a DataFrame: an association list from column name to cell value. -/
abbrev Row : Type := List (String × Cell)

/-- Value of a column in a row (none when the key is absent from the row). -/
def getCell : Row → String → Option Cell
  | [], _ => none
  | (k, v) :: t, c => if k = c then some v else getCell t c

/-- Overwrite a column of a row, appending it at the end when absent
(how pandas appends a newly assigned column). -/
def setCell : Row → String → Cell → Row
  | [], c, v => [(c, v)]
  | (k, w) :: t, c, v => if k = c then (c, v) :: t else (k, w) :: setCell t c v

/-- Value of a column in a row, with a missing key read as NaN. -/
def cellAt (r : Row) (c : String) : Cell :=
  (getCell r c).getD Cell.null

/-- A DataFrame: its column schema plus its rows. -/
structure Frame where
  schema : List String
  rows : List Row
  deriving DecidableEq, Repr

/-- Errors `preparar_dados` can signal: a pandas KeyError on a missing column,
or a ValueError carrying its message. -/
inductive PrepError where
  | keyError : String → PrepError
  | valueError : String → PrepError
  deriving DecidableEq, Repr

/-- Whether an `Except` result is a success. -/
def isOkB {ε α : Type} : Except ε α → Bool
  | Except.ok _ => true
  | Except.error _ => false

/-- Success payload of an `Except PrepError Frame`. -/
def okFrame : Except PrepError Frame → Option Frame
  | Except.ok f => some f
  | Except.error _ => none

/-- Rows of a successful pipeline result. -/
def rowsOf (x : Except PrepError Frame) : Option (List Row) :=
  Option.map Frame.rows (okFrame x)

/-- First row of a successful pipeline result. -/
def primeiraLinha (x : Except PrepError Frame) : Option Row :=
  Option.bind (rowsOf x) List.head?

/-- Embeds `df[df[col] == v]` (src/av1.py line 91): keep the rows whose cell in
`col` equals `v`; a missing column raises KeyError. -/
def filterEq (f : Frame) (col : String) (v : Cell) : Except PrepError Frame :=
  if col ∈ f.schema then
    Except.ok ⟨f.schema, f.rows.filter (fun r => decide (getCell r col = some v))⟩
  else Except.error (PrepError.keyError col)

/-- Embeds `df.dropna(subset=[col])` (src/av1.py line 94): drop the rows whose
cell in `col` is NaN; a column absent from the schema raises KeyError. -/
def dropnaSubset (f : Frame) (col : String) : Except PrepError Frame :=
  if col ∈ f.schema then
    Except.ok ⟨f.schema, f.rows.filter (fun r => !decide (getCell r col = some Cell.null))⟩
  else Except.error (PrepError.keyError col)

/-- Schema after assigning column `c`: unchanged if present, appended if new. -/
def appendColName (s : List String) (c : String) : List String :=
  if c ∈ s then s else s ++ [c]

/-- Embeds `series.map(dict)`: exact-key lookup in a literal mapping, with
unmapped keys (including NaN) going to NaN. -/
def tableLookup (t : List (Cell × String)) (v : Cell) : Cell :=
  match List.find? (fun p => decide (p.1 = v)) t with
  | some p => Cell.str p.2
  | none => Cell.null

/-- Embeds `df[new] = df[src].map(table)` (src/av1.py lines 128-189): assign a
derived label column from a lookup table; a missing source column raises
KeyError. -/
def mapColTable (f : Frame) (new src : String) (t : List (Cell × String)) :
    Except PrepError Frame :=
  if src ∈ f.schema then
    Except.ok ⟨appendColName f.schema new,
      f.rows.map (fun r => setCell r new (tableLookup t (cellAt r src)))⟩
  else Except.error (PrepError.keyError src)

/-- The `mapa_faixa_etaria` table (src/av1.py lines 106-127). -/
def mapa_faixa_etaria : List (Cell × String) :=
  [(Cell.num 1, "Menor de 17 anos"), (Cell.num 2, "17 anos"), (Cell.num 3, "18 anos"),
   (Cell.num 4, "19 anos"), (Cell.num 5, "20 anos"), (Cell.num 6, "21 anos"),
   (Cell.num 7, "22 anos"), (Cell.num 8, "23 anos"), (Cell.num 9, "24 anos"),
   (Cell.num 10, "25 anos"), (Cell.num 11, "Entre 26 e 30 anos"),
   (Cell.num 12, "Entre 31 e 35 anos"), (Cell.num 13, "Entre 36 e 40 anos"),
   (Cell.num 14, "Entre 41 e 45 anos"), (Cell.num 15, "Entre 46 e 50 anos"),
   (Cell.num 16, "Entre 51 e 55 anos"), (Cell.num 17, "Entre 56 e 60 anos"),
   (Cell.num 18, "Entre 61 e 65 anos"), (Cell.num 19, "Entre 66 e 70 anos"),
   (Cell.num 20, "Maior de 70 anos")]

/-- The `mapa_tipo_escola` table (src/av1.py lines 131-136). -/
def mapa_tipo_escola : List (Cell × String) :=
  [(Cell.num 1, "Não Respondeu"), (Cell.num 2, "Pública"),
   (Cell.num 3, "Privada"), (Cell.num 4, "Exterior")]

/-- The `mapa_localizacao` table (src/av1.py lines 140-143). -/
def mapa_localizacao : List (Cell × String) :=
  [(Cell.num 1, "Urbana"), (Cell.num 2, "Rural")]

/-- The `mapa_escolaridade` table (src/av1.py lines 147-158). -/
def mapa_escolaridade : List (Cell × String) :=
  [(Cell.str "A", "Nunca estudou"), (Cell.str "B", "Ensino Fundamental I Incompleto"),
   (Cell.str "C", "Ensino Fundamental I Completo"),
   (Cell.str "D", "Ensino Fundamental II Incompleto"),
   (Cell.str "E", "Ensino Fundamental II Completo"),
   (Cell.str "F", "Ensino Médio Incompleto"), (Cell.str "G", "Ensino Médio Completo"),
   (Cell.str "H", "Ensino Superior Incompleto"), (Cell.str "I", "Ensino Superior Completo"),
   (Cell.str "J", "Pós-graduação")]

/-- The `mapa_renda` table (src/av1.py lines 163-181). -/
def mapa_renda : List (Cell × String) :=
  [(Cell.str "A", "Nenhuma renda"), (Cell.str "B", "Até R$ 1.412,00"),
   (Cell.str "C", "R$ 1.412,01 a R$ 2.824,00"), (Cell.str "D", "R$ 2.824,01 a R$ 4.236,00"),
   (Cell.str "E", "R$ 4.236,01 a R$ 5.648,00"), (Cell.str "F", "R$ 5.648,01 a R$ 7.060,00"),
   (Cell.str "G", "R$ 7.060,01 a R$ 8.472,00"), (Cell.str "H", "R$ 8.472,01 a R$ 9.884,00"),
   (Cell.str "I", "R$ 9.884,01 a R$ 11.296,00"), (Cell.str "J", "R$ 11.296,01 a R$ 12.708,00"),
   (Cell.str "K", "R$ 12.708,01 a R$ 14.120,00"), (Cell.str "L", "R$ 14.120,01 a R$ 15.532,00"),
   (Cell.str "M", "R$ 15.532,01 a R$ 16.944,00"), (Cell.str "N", "R$ 16.944,01 a R$ 18.356,00"),
   (Cell.str "O", "R$ 18.356,01 a R$ 19.768,00"), (Cell.str "P", "R$ 19.768,01 a R$ 21.180,00"),
   (Cell.str "Q", "Acima de R$ 21.180,01")]

/-- The `mapa_internet` table (src/av1.py lines 185-188). -/
def mapa_internet : List (Cell × String) :=
  [(Cell.str "A", "Sim"), (Cell.str "B", "Não")]

/-- Digit value of a decimal digit character. -/
def digitVal (c : Char) : ℕ := c.toNat - 48

/-- Natural number denoted by a list of decimal digit characters. -/
def natOfDigits (cs : List Char) : ℕ :=
  List.foldl (fun a c => 10 * a + digitVal c) 0 cs

/-- Whether every character of the list is a decimal digit. -/
def allDigits (cs : List Char) : Bool :=
  List.all cs Char.isDigit

/-- Split a character list at the first occurrence of `c` (none if absent). -/
def splitFirst (c : Char) : List Char → Option (List Char × List Char)
  | [] => none
  | h :: t =>
    if h = c then some ([], t)
    else Option.map (fun p => (h :: p.1, p.2)) (splitFirst c t)

/-- Unsigned decimal mantissa: digits with an optional decimal point, at least
one digit overall; yields the integer mantissa and the count of fraction
digits. -/
def parseUnsignedDec (cs : List Char) : Option (ℕ × ℕ) :=
  match splitFirst '.' cs with
  | none =>
    if !cs.isEmpty && allDigits cs then some (natOfDigits cs, 0) else none
  | some (ip, fp) =>
    if (!ip.isEmpty || !fp.isEmpty) && allDigits ip && allDigits fp then
      some (natOfDigits ip * 10 ^ fp.length + natOfDigits fp, fp.length)
    else none

/-- Optionally signed decimal integer (used for exponents). -/
def parseSignInt (cs : List Char) : Option ℤ :=
  match cs with
  | '+' :: t => if !t.isEmpty && allDigits t then some ((natOfDigits t : ℤ)) else none
  | '-' :: t => if !t.isEmpty && allDigits t then some (-(natOfDigits t : ℤ)) else none
  | _ => if !cs.isEmpty && allDigits cs then some ((natOfDigits cs : ℤ)) else none

/-- Mantissa with an optional `e`/`E` exponent part. -/
def parseDecExp (cs : List Char) : Option Dec :=
  match splitFirst 'e' cs with
  | some (m, ex) =>
    Option.bind (parseUnsignedDec m) (fun mv =>
      Option.map (fun ev => decOfParts (mv.1 : ℤ) mv.2 ev) (parseSignInt ex))
  | none =>
    match splitFirst 'E' cs with
    | some (m, ex) =>
      Option.bind (parseUnsignedDec m) (fun mv =>
        Option.map (fun ev => decOfParts (mv.1 : ℤ) mv.2 ev) (parseSignInt ex))
    | none => Option.map (fun mv => decNorm (mv.1 : ℤ) mv.2) (parseUnsignedDec cs)

/-- Whitespace characters Python float conversion strips at either end. -/
def isSpaceChar (c : Char) : Bool :=
  c == ' ' || c == '\t' || c == '\n' || c == '\r' || c == '\x0b' || c == '\x0c'

/-- Strip whitespace from both ends of a character list. -/
def trimChars (cs : List Char) : List Char :=
  List.reverse (List.dropWhile isSpaceChar (List.reverse (List.dropWhile isSpaceChar cs)))

/-- Numeric interpretation of a string, as Python float conversion accepts it
for the finite decimal and exponent forms that occur in this data (leading and
trailing whitespace stripped, optional sign, digits with optional decimal
point, optional exponent); anything else fails. -/
def parsePyFloat (s : String) : Option Dec :=
  match trimChars s.data with
  | '+' :: t => parseDecExp t
  | '-' :: t => Option.map (fun d => Dec.mk (-(Dec.mant d)) (Dec.exp d)) (parseDecExp t)
  | cs => parseDecExp cs

/-- Embeds `pd.to_numeric(cell, errors='coerce')` on one cell: NaN stays NaN,
numbers stay themselves, a string becomes its numeric interpretation or NaN
when it has none; this never fails. -/
def toNumericCell : Cell → Cell
  | Cell.null => Cell.null
  | Cell.num q => Cell.num q
  | Cell.str s =>
    match parsePyFloat s with
    | some q => Cell.num q
    | none => Cell.null

/-- The five score columns coerced at src/av1.py line 98. -/
def colunas_numericas : List String :=
  ["NU_NOTA_CN", "NU_NOTA_CH", "NU_NOTA_LC", "NU_NOTA_MT", "NU_NOTA_REDACAO"]

/-- Coerce one column of one row with `toNumericCell` (no-op when the row lacks
the key). -/
def coerceCellInRow (r : Row) (col : String) : Row :=
  match getCell r col with
  | some v => setCell r col (toNumericCell v)
  | none => r

/-- Embeds one iteration of the loop at src/av1.py lines 99-101:
`if col in df.columns: df[col] = pd.to_numeric(df[col], errors='coerce')`. -/
def coerceColInFrame (f : Frame) (col : String) : Frame :=
  if col ∈ f.schema then ⟨f.schema, f.rows.map (fun r => coerceCellInRow r col)⟩
  else f

/-- Embeds the whole coercion loop over `colunas_numericas`. -/
def coerceScores (f : Frame) : Frame :=
  List.foldl coerceColInFrame f colunas_numericas

/-- The 17 valid income letters, the string tested by `x in 'ABCDEFGHIJKLMNOPQ'`
at src/av1.py line 193. -/
def lettersQ006 : String := "ABCDEFGHIJKLMNOPQ"

/-- The space-separated letter string whose `.index` the code takes at
src/av1.py line 193. -/
def spacedQ006 : String := "A B C D E F G H I J K L M N O P Q"

/-- Whether `needle` is a prefix of `hay`. -/
def isPrefixChars : List Char → List Char → Bool
  | [], _ => true
  | _ :: _, [] => false
  | a :: as, b :: bs => a == b && isPrefixChars as bs

/-- First position at or after `i` where `needle` occurs in `hay`. -/
def findSubFrom (needle : List Char) : List Char → ℕ → Option ℕ
  | [], i => if isPrefixChars needle [] then some i else none
  | b :: t, i =>
    if isPrefixChars needle (b :: t) then some i else findSubFrom needle t (i + 1)

/-- Python substring containment `needle in hay` (the empty string is contained
in every string). -/
def substrMem (needle hay : String) : Bool :=
  (findSubFrom needle.data hay.data 0).isSome

/-- Python `hay.index(needle)`: position of the first occurrence, none when the
needle does not occur (where Python raises ValueError). -/
def strIndexOf (hay needle : String) : Option ℕ :=
  findSubFrom needle.data hay.data 0

/-- Left-pad a digit list with zeros up to length `n`. -/
def padLeftZeros (ds : List Char) (n : ℕ) : List Char :=
  List.replicate (n - ds.length) '0' ++ ds

/-- Python `str()` of a float holding an exact decimal: an integral value
prints with a trailing `.0`, otherwise the decimal point is placed before the
last `exp` digits (no numeric cell reaches the stringified Q006 path in any
claim, but the shape is kept faithful for the decimals at hand). -/
def pyFloatStr (d : Dec) : String :=
  let sign := if d.mant < 0 then "-" else ""
  let ds := (toString d.mant.natAbs).data
  if d.exp = 0 then sign ++ String.mk ds ++ ".0"
  else
    let padded := padLeftZeros ds (d.exp + 1)
    sign ++ String.mk (List.take (padded.length - d.exp) padded) ++ "." ++
      String.mk (List.drop (padded.length - d.exp) padded)

/-- Stringification of one cell under `astype('str')`. -/
def pyStr : Cell → String
  | Cell.null => "nan"
  | Cell.num q => pyFloatStr q
  | Cell.str s => s

/-- Embeds the lambda of src/av1.py line 193 (same expression at line 374, with
-1 as the sentinel): stringify the Q006 cell; if it is a substring of
`ABCDEFGHIJKLMNOPQ`, take its position in the space-separated string
`A B C D E F G H I J K L M N O P Q` (ValueError when not found there);
otherwise -1. -/
def q006IndexVal (v : Cell) : Except PrepError ℤ :=
  let x := pyStr v
  if substrMem x lettersQ006 then
    match strIndexOf spacedQ006 x with
    | some i => Except.ok (i : ℤ)
    | none => Except.error (PrepError.valueError "substring not found")
  else Except.ok (-1)

/-- Apply the line-193 lambda to the Q006 cell of every row, propagating the
first ValueError (how `Series.map` aborts). -/
def collectIndices : List Row → Except PrepError (List ℤ)
  | [] => Except.ok []
  | r :: t =>
    match q006IndexVal (cellAt r "Q006") with
    | Except.error e => Except.error e
    | Except.ok i =>
      match collectIndices t with
      | Except.error e => Except.error e
      | Except.ok rest => Except.ok (i :: rest)

/-- The bin edges of src/av1.py line 194. -/
def rendaBins : List ℤ := [-1, 0, 3, 6, 10, 16]

/-- The six labels of src/av1.py line 195. -/
def rendaLabels : List String :=
  ["Sem resposta", "Baixa", "Média-Baixa", "Média", "Média-Alta", "Alta"]

/-- Message of the ValueError pandas raises when the label count does not match
the interval count. -/
def cutLabelsErr : String := "Bin labels must be one fewer than the number of bin edges"

/-- Right-closed interval placement of one value among consecutive bin edges;
values outside every interval become NaN. -/
def cutOne (x : ℤ) : List ℤ → List String → Cell
  | b0 :: b1 :: bs, l :: ls =>
    if b0 < x ∧ x ≤ b1 then Cell.str l else cutOne x (b1 :: bs) ls
  | _, _ => Cell.null

/-- Embeds `pd.cut(xs, bins, labels)`: pandas first checks that there is one
label per interval (one fewer than the bin edges) and raises ValueError
otherwise; only then does it place the values. -/
def pdCut (xs : List ℤ) (bins : List ℤ) (labels : List String) :
    Except PrepError (List Cell) :=
  if List.length labels ≠ List.length bins - 1 then
    Except.error (PrepError.valueError cutLabelsErr)
  else Except.ok (List.map (fun x => cutOne x bins labels) xs)

/-- Embeds src/av1.py lines 192-196: compute the Q006 ordinal index of every
row and assign `pd.cut` of it to the new column `FAIXA_RENDA`. -/
def faixaRendaStage (f : Frame) : Except PrepError Frame :=
  if "Q006" ∈ f.schema then
    match collectIndices f.rows with
    | Except.error e => Except.error e
    | Except.ok xs =>
      match pdCut xs rendaBins rendaLabels with
      | Except.error e => Except.error e
      | Except.ok cs =>
        Except.ok ⟨appendColName f.schema "FAIXA_RENDA",
          List.zipWith (fun r c => setCell r "FAIXA_RENDA" c) f.rows cs⟩
  else Except.error (PrepError.keyError "Q006")

/-- Embeds src/av1.py lines 91-94: the presence filter followed by the
null-score drop. -/
def filtrados (df : Frame) : Except PrepError Frame :=
  match filterEq df "TP_PRESENCA_CH" (Cell.num 1) with
  | Except.error e => Except.error e
  | Except.ok f1 => dropnaSubset f1 "NU_NOTA_CH"

/-- Embeds src/av1.py lines 87-189: everything `preparar_dados` does before the
income bucketing — filter, null drop, score coercion, and the seven derived
label columns. -/
def enriquecidoSemFaixa (df : Frame) : Except PrepError Frame :=
  Except.bind (filtrados df) (fun f2 =>
  Except.bind (mapColTable (coerceScores f2) "FAIXA_ETARIA_DESC" "TP_FAIXA_ETARIA" mapa_faixa_etaria) (fun f4 =>
  Except.bind (mapColTable f4 "TIPO_ESCOLA_DESC" "TP_ESCOLA" mapa_tipo_escola) (fun f5 =>
  Except.bind (mapColTable f5 "LOCALIZACAO_ESCOLA_DESC" "TP_LOCALIZACAO_ESC" mapa_localizacao) (fun f6 =>
  Except.bind (mapColTable f6 "ESCOLARIDADE_PAI" "Q001" mapa_escolaridade) (fun f7 =>
  Except.bind (mapColTable f7 "ESCOLARIDADE_MAE" "Q002" mapa_escolaridade) (fun f8 =>
  Except.bind (mapColTable f8 "RENDA_FAMILIAR" "Q006" mapa_renda) (fun f9 =>
  mapColTable f9 "ACESSO_INTERNET" "Q025" mapa_internet)))))))

/-- Embeds the whole of `preparar_dados` (src/av1.py lines 74-198): the
enrichment stages followed by the `FAIXA_RENDA` bucketing assignment. -/
def preparar_dados (df : Frame) : Except PrepError Frame :=
  match enriquecidoSemFaixa df with
  | Except.error e => Except.error e
  | Except.ok g => faixaRendaStage g

/-- The raw column schema the pipeline reads. -/
def esquemaCompleto : List String :=
  ["TP_PRESENCA_CH", "NU_NOTA_CN", "NU_NOTA_CH", "NU_NOTA_LC", "NU_NOTA_MT",
   "NU_NOTA_REDACAO", "TP_FAIXA_ETARIA", "TP_ESCOLA", "TP_LOCALIZACAO_ESC",
   "Q001", "Q002", "Q006", "Q025"]

/-- The seven derived columns appended before the bucketing stage. -/
def colunasDerivadas : List String :=
  ["FAIXA_ETARIA_DESC", "TIPO_ESCOLA_DESC", "LOCALIZACAO_ESCOLA_DESC",
   "ESCOLARIDADE_PAI", "ESCOLARIDADE_MAE", "RENDA_FAMILIAR", "ACESSO_INTERNET"]

/-- A benign full-schema row with the given presence, humanities score and
income code. -/
def linhaBase (pres nota q006 : Cell) : Row :=
  [("TP_PRESENCA_CH", pres), ("NU_NOTA_CN", Cell.num 480), ("NU_NOTA_CH", nota),
   ("NU_NOTA_LC", Cell.num 510), ("NU_NOTA_MT", Cell.num 520),
   ("NU_NOTA_REDACAO", Cell.num 600), ("TP_FAIXA_ETARIA", Cell.num 3),
   ("TP_ESCOLA", Cell.num 2), ("TP_LOCALIZACAO_ESC", Cell.num 1),
   ("Q001", Cell.str "B"), ("Q002", Cell.str "C"), ("Q006", q006),
   ("Q025", Cell.str "A")]

/-- A full-schema row carrying the value anomalies of interest: a letter score,
a missing score, a string score, an out-of-range school code and an unmapped
parent-education code. -/
def linhaAnomalias : Row :=
  [("TP_PRESENCA_CH", Cell.num 1), ("NU_NOTA_CN", Cell.num 500),
   ("NU_NOTA_CH", Cell.num 550), ("NU_NOTA_LC", Cell.str "xyz"),
   ("NU_NOTA_MT", Cell.null), ("NU_NOTA_REDACAO", Cell.str "450.5"),
   ("TP_FAIXA_ETARIA", Cell.num 3), ("TP_ESCOLA", Cell.num 9),
   ("TP_LOCALIZACAO_ESC", Cell.num 1), ("Q001", Cell.str "B"),
   ("Q002", Cell.str "Z"), ("Q006", Cell.str "F"), ("Q025", Cell.str "A")]

/-- A one-row full-schema batch containing the anomalies row. -/
def amostraCompleta : Frame := ⟨esquemaCompleto, [linhaAnomalias]⟩

/-- A four-row batch exercising the presence filter and the null drop:
present with a score, absent, present with a missing score, present with a
non-numeric string score. -/
def amostraFiltro : Frame :=
  ⟨esquemaCompleto,
   [linhaBase (Cell.num 1) (Cell.num 550) (Cell.str "F"),
    linhaBase (Cell.num 2) (Cell.num 400) (Cell.str "B"),
    linhaBase (Cell.num 1) Cell.null (Cell.str "C"),
    linhaBase (Cell.num 1) (Cell.str "abc") (Cell.str "D")]⟩

/-- A one-row full-schema batch with income code B. -/
def amostraC3 : Frame := ⟨esquemaCompleto, [linhaBase (Cell.num 1) (Cell.num 500) (Cell.str "B")]⟩

/-- A two-row batch: one retained row and one dropped (presence 3) row. -/
def amostraC7 : Frame :=
  ⟨esquemaCompleto,
   [linhaBase (Cell.num 1) (Cell.num 700) (Cell.str "Q"),
    linhaBase (Cell.num 3) (Cell.num 300) (Cell.str "A")]⟩

/-- The raw columns without the humanities score column. -/
def esquemaSemNota : List String :=
  ["TP_PRESENCA_CH", "NU_NOTA_CN", "NU_NOTA_LC", "NU_NOTA_MT", "NU_NOTA_REDACAO",
   "TP_FAIXA_ETARIA", "TP_ESCOLA", "TP_LOCALIZACAO_ESC", "Q001", "Q002", "Q006", "Q025"]

/-- A batch lacking the humanities score column. -/
def amostraSemNota : Frame :=
  ⟨esquemaSemNota,
   [[("TP_PRESENCA_CH", Cell.num 1), ("NU_NOTA_CN", Cell.num 480),
     ("Q006", Cell.str "B"), ("Q025", Cell.str "A")]]⟩

/-- The five-row batch of the end-to-end scenario: row 1 present with score
550.0 and income code F, row 2 absent, rows 3-5 present with scores. -/
def lote5 : Frame :=
  ⟨esquemaCompleto,
   [linhaBase (Cell.num 1) (Cell.num 550) (Cell.str "F"),
    linhaBase (Cell.num 2) (Cell.num 400) (Cell.str "B"),
    linhaBase (Cell.num 1) (Cell.num 600) (Cell.str "A"),
    linhaBase (Cell.num 1) (Cell.num 610) (Cell.str "C"),
    linhaBase (Cell.num 1) (Cell.num 620) (Cell.str "D")]⟩

/-- Whether a row satisfies the enrichment invariant of the spec: presence code
1 and a non-null humanities score. -/
def linhaOkCH (r : Row) : Bool :=
  decide (getCell r "TP_PRESENCA_CH" = some (Cell.num 1)) &&
  (match getCell r "NU_NOTA_CH" with
   | some Cell.null => false
   | none => false
   | some _ => true)

/-- Setting a column and reading it back yields the assigned value. -/
theorem getCell_setCell_same (r : Row) (c : String) (v : Cell) :
    getCell (setCell r c v) c = some v := by
  induction r with
  | nil => simp [setCell, getCell]
  | cons p t ih =>
    obtain ⟨k, w⟩ := p
    by_cases h : k = c
    · simp [setCell, getCell, h]
    · simp [setCell, getCell, h, ih]

/-- Reading the coerced column after `coerceCellInRow` gives exactly the
`toNumericCell` image of the raw cell. -/
theorem getCell_coerceCellInRow (r : Row) (c : String) :
    getCell (coerceCellInRow r c) c = Option.map toNumericCell (getCell r c) := by
  unfold coerceCellInRow
  cases h : getCell r c with
  | none => simp [h]
  | some v => simp [getCell_setCell_same]

/-- One coercion pass keeps the schema. -/
theorem coerceColInFrame_schema (f : Frame) (c : String) :
    (coerceColInFrame f c).schema = f.schema := by
  unfold coerceColInFrame
  split <;> rfl

/-- One coercion pass keeps the row count. -/
theorem coerceColInFrame_len (f : Frame) (c : String) :
    List.length (coerceColInFrame f c).rows = List.length f.rows := by
  unfold coerceColInFrame
  split <;> simp

/-- The whole coercion loop keeps the schema. -/
theorem coerceScores_schema (f : Frame) : (coerceScores f).schema = f.schema := by
  simp [coerceScores, colunas_numericas, coerceColInFrame_schema]

/-- The whole coercion loop keeps the row count. -/
theorem coerceScores_len (f : Frame) :
    List.length (coerceScores f).rows = List.length f.rows := by
  simp [coerceScores, colunas_numericas, coerceColInFrame_len]

/-- With the six labels of line 195 against the five intervals of the bins of
line 194, `pd.cut` fails its label check whatever the data is. -/
theorem pdCut_renda (xs : List ℤ) :
    pdCut xs rendaBins rendaLabels = Except.error (PrepError.valueError cutLabelsErr) := rfl

/-- The bucketing assignment of lines 192-196 never succeeds, for any frame. -/
theorem faixaRendaStage_not_ok (f : Frame) : isOkB (faixaRendaStage f) = false := by
  unfold faixaRendaStage
  by_cases h : "Q006" ∈ f.schema
  · rw [if_pos h]
    cases hc : collectIndices f.rows with
    | error e => rfl
    | ok xs => rfl
  · rw [if_neg h]
    rfl

/-- `preparar_dados` never returns a frame, for any input frame. -/
theorem preparar_dados_never_ok (df : Frame) : isOkB (preparar_dados df) = false := by
  unfold preparar_dados
  cases h : enriquecidoSemFaixa df with
  | error e => rfl
  | ok g => exact faixaRendaStage_not_ok g

/-- C1: on a full-schema batch, the presence filter and the null drop of lines
91-94 do run before any derived field and leave only rows with presence code 1
and a non-null raw humanities score; but `preparar_dados` then raises the
ValueError of the `pd.cut` call and returns no batch at all, and a string score
such as "abc" survives the null drop only to be coerced to null afterwards, so
by the pre-bucketing stage the non-null invariant is already broken. -/
theorem c1_filter_and_drop_precede_derivation_yet_no_batch_returned :
    Option.map List.length (rowsOf (filtrados amostraFiltro)) = some 2
    ∧ Option.map (fun rs => List.all rs linhaOkCH) (rowsOf (filtrados amostraFiltro)) = some true
    ∧ Option.map (fun rs => List.all rs linhaOkCH) (rowsOf (enriquecidoSemFaixa amostraFiltro)) = some false
    ∧ preparar_dados amostraFiltro = Except.error (PrepError.valueError cutLabelsErr) := by
  refine ⟨rfl, rfl, rfl, rfl⟩

/-- C2: the lambda of line 193 takes the character offset in the
space-separated string "A B C D E F G H I J K L M N O P Q", so the letters map
to twice their 0-based position — A to 0, B to 2, C to 4, Q to 32 — not to
0..16 as the claim states; out-of-domain codes such as "R" or NaN (which
stringifies to "nan") do give -1. -/
theorem c2_income_index_doubles_position :
    q006IndexVal (Cell.str "A") = Except.ok 0
    ∧ q006IndexVal (Cell.str "B") = Except.ok 2
    ∧ q006IndexVal (Cell.str "C") = Except.ok 4
    ∧ q006IndexVal (Cell.str "Q") = Except.ok 32
    ∧ q006IndexVal (Cell.str "R") = Except.ok (-1)
    ∧ q006IndexVal Cell.null = Except.ok (-1) := by
  refine ⟨rfl, rfl, rfl, rfl, rfl, rfl⟩

/-- C3: no income bucket is ever computed: line 195 passes six labels while the
six bin edges of line 194 delimit only five intervals, so `pd.cut` raises
ValueError on every input and `preparar_dados` dies there for every full-schema
batch. -/
theorem c3_income_bucket_never_computed :
    List.length rendaLabels = 6
    ∧ List.length rendaBins = 6
    ∧ pdCut [-1, 0, 1, 4, 16] rendaBins rendaLabels
        = Except.error (PrepError.valueError cutLabelsErr)
    ∧ preparar_dados amostraC3 = Except.error (PrepError.valueError cutLabelsErr) := by
  refine ⟨rfl, rfl, rfl, rfl⟩

/-- C4: an out-of-table code and a non-numeric score do degrade to null locally,
as the claim says, but the batch is never processed to completion: every
full-schema batch dies with the ValueError of the `pd.cut` call, and a Q006
code such as "AB" even aborts inside the per-row index lambda, because it
passes the substring test against "ABCDEFGHIJKLMNOPQ" and then `.index` fails
on the space-separated string. -/
theorem c4_pipeline_always_raises_despite_local_coercion :
    tableLookup mapa_tipo_escola (Cell.num 9) = Cell.null
    ∧ tableLookup mapa_escolaridade (Cell.str "Z") = Cell.null
    ∧ toNumericCell (Cell.str "xyz") = Cell.null
    ∧ preparar_dados amostraCompleta = Except.error (PrepError.valueError cutLabelsErr)
    ∧ substrMem "AB" lettersQ006 = true
    ∧ q006IndexVal (Cell.str "AB") = Except.error (PrepError.valueError "substring not found") := by
  refine ⟨rfl, rfl, rfl, rfl, rfl, rfl⟩

/-- C5: a batch lacking NU_NOTA_CH does raise the KeyError schema error before
any output, as claimed; but the missing-column condition is not the only fatal
error kind, since a complete batch also dies with the ValueError of the
`pd.cut` call. -/
theorem c5_missing_column_keyerror_but_not_only_fatal :
    preparar_dados amostraSemNota = Except.error (PrepError.keyError "NU_NOTA_CH")
    ∧ preparar_dados amostraCompleta = Except.error (PrepError.valueError cutLabelsErr) := by
  refine ⟨rfl, rfl⟩

/-- C6: the score coercion of lines 98-101 is total and local: it rewrites the
coerced column of each row to the `toNumericCell` image of its raw cell, keeps
the schema and the row count of the frame, and on values it parses a valid
number string (for example "450.5" to 450.5) and nulls anything else (for
example "abc"); on the anomalies batch the enriched frame indeed carries 450.5
for the raw string "450.5" and null for the raw string "xyz". -/
theorem c6_score_coercion_semantics :
    (∀ (r : Row) (c : String),
      getCell (coerceCellInRow r c) c = Option.map toNumericCell (getCell r c))
    ∧ (∀ f : Frame, (coerceScores f).schema = f.schema
        ∧ List.length (coerceScores f).rows = List.length f.rows)
    ∧ parsePyFloat "450.5" = some ⟨4505, 1⟩
    ∧ toNumericCell (Cell.str "450.5") = Cell.num ⟨4505, 1⟩
    ∧ toNumericCell (Cell.str "abc") = Cell.null
    ∧ toNumericCell Cell.null = Cell.null
    ∧ toNumericCell (Cell.num 550) = Cell.num 550
    ∧ Option.map (fun r => getCell r "NU_NOTA_REDACAO")
        (primeiraLinha (enriquecidoSemFaixa amostraCompleta)) = some (some (Cell.num ⟨4505, 1⟩))
    ∧ Option.map (fun r => getCell r "NU_NOTA_LC")
        (primeiraLinha (enriquecidoSemFaixa amostraCompleta)) = some (some Cell.null) := by
  refine ⟨getCell_coerceCellInRow, fun f => ⟨coerceScores_schema f, coerceScores_len f⟩,
    rfl, rfl, rfl, rfl, rfl, rfl, rfl⟩

/-- C7: no output batch is ever produced — `preparar_dados` raises the
ValueError of the `pd.cut` call on this two-row batch too; at the pre-bucketing
stage the frame has the original columns followed by the seven derived columns,
one surviving row out of two, and the surviving row's raw cells unchanged. -/
theorem c7_no_output_batch_produced :
    preparar_dados amostraC7 = Except.error (PrepError.valueError cutLabelsErr)
    ∧ Option.map Frame.schema (okFrame (enriquecidoSemFaixa amostraC7))
        = some (esquemaCompleto ++ colunasDerivadas)
    ∧ Option.map List.length (rowsOf (enriquecidoSemFaixa amostraC7)) = some 1
    ∧ List.length amostraC7.rows = 2
    ∧ Option.map (fun r => getCell r "Q006") (primeiraLinha (enriquecidoSemFaixa amostraC7))
        = some (some (Cell.str "Q"))
    ∧ Option.map (fun r => getCell r "NU_NOTA_CH") (primeiraLinha (enriquecidoSemFaixa amostraC7))
        = some (some (Cell.num 700)) := by
  refine ⟨rfl, by decide, rfl, rfl, rfl, by decide⟩

/-- C8: on the five-row scenario batch, `preparar_dados` raises the ValueError
of the `pd.cut` call instead of returning a batch; the pre-bucketing frame does
have 4 rows (the absent row dropped) and row 1's RENDA_FAMILIAR is the bracket
string mapped to F, but the income index the lambda computes for F is 10 —
twice the claimed 5. -/
theorem c8_five_row_scenario_fails :
    preparar_dados lote5 = Except.error (PrepError.valueError cutLabelsErr)
    ∧ Option.map List.length (rowsOf (enriquecidoSemFaixa lote5)) = some 4
    ∧ Option.map (fun r => getCell r "RENDA_FAMILIAR") (primeiraLinha (enriquecidoSemFaixa lote5))
        = some (some (Cell.str "R$ 5.648,01 a R$ 7.060,00"))
    ∧ q006IndexVal (Cell.str "F") = Except.ok 10 := by
  refine ⟨rfl, rfl, rfl, rfl⟩

/-- C9: for every input frame `preparar_dados` fails to return a batch; the
bucketing stage of lines 192-196 never succeeds on any frame, because with the
six labels of line 195 against the five intervals of the six bin edges of line
194 the `pd.cut` label check raises ValueError whatever the data. -/
theorem c9_cut_label_mismatch_always_raises :
    (∀ df : Frame, isOkB (preparar_dados df) = false)
    ∧ (∀ f : Frame, isOkB (faixaRendaStage f) = false)
    ∧ (∀ xs : List ℤ, pdCut xs rendaBins rendaLabels
        = Except.error (PrepError.valueError cutLabelsErr))
    ∧ List.length rendaLabels = 6
    ∧ List.length rendaBins - 1 = 5 := by
  refine ⟨preparar_dados_never_ok, faixaRendaStage_not_ok, pdCut_renda, rfl, rfl⟩

/-- C10: a Q006 cell holding the empty string passes the substring test (the
empty string is contained in "ABCDEFGHIJKLMNOPQ") and `.index` of the empty
string is 0, so its ordinal index is 0 — the same value as the valid lowest
bracket "A" — and not the -1 sentinel that a NaN cell (stringified to "nan")
receives. -/
theorem c10_empty_string_income_index_zero :
    substrMem "" lettersQ006 = true
    ∧ q006IndexVal (Cell.str "") = Except.ok 0
    ∧ q006IndexVal (Cell.str "A") = Except.ok 0
    ∧ collectIndices [[("Q006", Cell.str "")]] = Except.ok [0]
    ∧ q006IndexVal Cell.null = Except.ok (-1) := by
  refine ⟨rfl, rfl, rfl, rfl, rfl⟩

end Av1
